import Mathlib

/-!
Verification of the DynamoDB Local process supervisor
(`localstack/services/dynamodb/server.py`).

The Python class `DynamodbServer` is shallowly embedded below:

* `DdbConfig` holds the per-server configuration fields of the class
  (`port`, `host`, `db_path`, `heap_size`, the three boolean feature flags
  and `cors`).
* `create_shell_command` embeds `DynamodbServer._create_shell_command`
  (together with `_get_java_vm_options`); external inputs (the CPU
  architecture, the agent jar path and the install directory) are
  parameters.
* `mk_server` embeds `DynamodbServer.__init__`, with the surrounding
  configuration (`config.dirs`, environment options, `get_free_tcp_port`,
  `os.path.abspath`) as an explicit `InitEnv`.
* `start_dynamodb` / `stop_dynamodb` embed the two lifecycle operations as
  state transformers over `DdbState`, emitting an explicit event trace
  (`Ev`) for every externally visible action.

Python truthiness tests (`if self.db_path:`, `not db_path`) are embedded
faithfully: an optional string is truthy iff it is present and non-empty.
-/

/-- Python truthiness of an `Optional[str]` value: `None` and `""` are falsy. -/
def optStrTruthy : Option String → Bool
  | none => false
  | some s => !(s == "")

/-- CPU architecture as returned by `localstack.utils.platform.get_arch`. -/
inductive Arch
  | amd64
  | arm64
deriving DecidableEq, Repr

/-- The configuration fields of a `DynamodbServer` instance. -/
structure DdbConfig where
  port : Nat
  host : String
  db_path : Option String
  heap_size : String
  delay_transient_statuses : Bool
  optimize_db_before_startup : Bool
  share_db : Bool
  cors : Option String
deriving DecidableEq, Repr

/-- Embedding of `DynamodbServer.in_memory`: `self.db_path is None`. -/
def in_memory (s : DdbConfig) : Bool := s.db_path.isNone

/-- Embedding of `DynamodbServer._get_java_vm_options`: the SVE workaround flag is emitted
exactly when the architecture is arm64. -/
def get_java_vm_options (arch : Arch) : List String :=
  if arch = Arch.arm64 then ["-XX:UseSVE=0"] else []

/-- The `cmd` part of `DynamodbServer._create_shell_command` (everything built
before the `parameters` list): java invocation, VM options, heap flag, agent,
library path and jar path. -/
def cmd_head (s : DdbConfig) (arch : Arch) (agentJar installedDir : String) : List String :=
  ["java"] ++ get_java_vm_options arch ++
    ["-Xmx" ++ s.heap_size,
     "-javaagent:" ++ agentJar,
     "-Djava.library.path=" ++ (installedDir ++ "/DynamoDBLocal_lib"),
     "-jar",
     installedDir ++ "/DynamoDBLocal.jar"]

/-- The `-dbPath` fragment: Python `if self.db_path:` is a truthiness test, so
an empty-string path emits nothing. -/
def dbPathArgs (s : DdbConfig) : List String :=
  match s.db_path with
  | some p => if p = "" then [] else ["-dbPath", p]
  | none => []

/-- The three independent boolean feature flags, in source order. -/
def flag_tail (s : DdbConfig) : List String :=
  (if s.delay_transient_statuses then ["-delayTransientStatuses"] else []) ++
    (if s.optimize_db_before_startup then ["-optimizeDbBeforeStartup"] else []) ++
      (if s.share_db then ["-sharedDb"] else [])

/-- The `parameters` part of `DynamodbServer._create_shell_command`. -/
def param_list (s : DdbConfig) : List String :=
  ["-port", Nat.repr s.port] ++
    (if in_memory s then ["-inMemory"] else []) ++
      dbPathArgs s ++ flag_tail s

/-- Embedding of `DynamodbServer._create_shell_command`: `cmd + parameters`. -/
def create_shell_command (s : DdbConfig) (arch : Arch) (agentJar installedDir : String) :
    List String :=
  cmd_head s arch agentJar installedDir ++ param_list s

/-- Whether the adjacent pair `flag, val` occurs somewhere in an argv list. -/
def has_pair (flag val : String) : List String → Bool
  | a :: b :: rest => (a == flag && b == val) || has_pair flag val (b :: rest)
  | _ => false

example :
    create_shell_command
      { port := 4566, host := "localhost", db_path := some ("/data/dynamodb"),
        heap_size := "256m", delay_transient_statuses := false,
        optimize_db_before_startup := false, share_db := true, cors := none }
      Arch.arm64 ("/opt/agent.jar") ("/opt/ddb") =
      ["java", "-XX:UseSVE=0", "-Xmx256m", "-javaagent:/opt/agent.jar",
       "-Djava.library.path=/opt/ddb/DynamoDBLocal_lib", "-jar",
       "/opt/ddb/DynamoDBLocal.jar", "-port", "4566", "-dbPath",
       "/data/dynamodb", "-sharedDb"] := by
  decide

/-! String facts: decimal numerals contain no dash, and the fixed literal
parts of the command line cannot collide with any of the parameter flag
tokens. -/

/-- A decimal digit character is never a dash. -/
theorem digitChar_ne_dash (m : Nat) (h : m < 10) : Nat.digitChar m ≠ '-' := by
  interval_cases m <;> decide

/-- The base-10 digit accumulator never produces a dash. -/
theorem toDigitsCore_no_dash :
    ∀ (fuel n : Nat) (ds : List Char), '-' ∉ ds → '-' ∉ Nat.toDigitsCore 10 fuel n ds := by
  intro fuel
  induction fuel with
  | zero => intro n ds h; simpa [Nat.toDigitsCore] using h
  | succ f ih =>
    intro n ds h
    rw [Nat.toDigitsCore]
    have hd : '-' ∉ Nat.digitChar (n % 10) :: ds := by
      intro hc
      rcases List.mem_cons.mp hc with hc | hc
      · exact digitChar_ne_dash (n % 10) (Nat.mod_lt _ (by omega)) hc.symm
      · exact h hc
    split
    · exact hd
    · exact ih _ _ hd

/-- The decimal representation of a natural number contains no dash. -/
theorem repr_no_dash (n : Nat) : '-' ∉ (Nat.repr n).data := by
  have h : (Nat.repr n).data = Nat.toDigitsCore 10 (n+1) n [] := rfl
  rw [h]
  exact toDigitsCore_no_dash (n+1) n [] (by simp)

/-- The string `str(self.port)` can never equal a token containing a dash. -/
theorem repr_ne_of_dash (n : Nat) (t : String) (hd : '-' ∈ t.data) : Nat.repr n ≠ t := by
  intro he
  exact repr_no_dash n (he ▸ hd)

/-- A string starting with the literal `p` differs from any `t` whose first
characters disagree with `p`. -/
theorem append_ne_of_take_ne (p s t : String)
    (h : t.data.take p.data.length ≠ p.data) : p ++ s ≠ t := by
  intro he
  apply h
  rw [← he, String.data_append]
  exact List.take_left _ _

/-- A string ending with the literal `suf` differs from any `t` whose last
characters disagree with `suf`. -/
theorem append_ne_of_drop_ne (d suf t : String)
    (h : t.data.drop (t.data.length - suf.data.length) ≠ suf.data) : d ++ suf ≠ t := by
  intro he
  apply h
  rw [← he, String.data_append, List.length_append]
  have h2 : d.data.length + suf.data.length - suf.data.length = d.data.length := by omega
  rw [h2]
  exact List.drop_left _ _
theorem has_pair_eq_false_of_not_mem {f v : String} :
    ∀ (l : List String), f ∉ l → has_pair f v l = false
  | [] => fun _ => rfl
  | [_] => fun _ => rfl
  | a :: b :: r => fun h => by
      have ha : ¬(a = f) := fun he => h (by simp [he])
      have hr : f ∉ b :: r := fun hm => h (List.mem_cons_of_mem a hm)
      simp [has_pair, has_pair_eq_false_of_not_mem (b :: r) hr, ha]

theorem has_pair_imp_mem {f v : String} :
    ∀ (l : List String), has_pair f v l = true → f ∈ l
  | [] => fun h => by simp [has_pair] at h
  | [a] => fun h => by simp [has_pair] at h
  | a :: b :: r => fun h => by
      have h0 : a = f ∧ b = v ∨ has_pair f v (b :: r) = true := by simpa [has_pair] using h
      rcases h0 with h1 | h1
      · simp [h1.1]
      · exact List.mem_cons_of_mem a (has_pair_imp_mem (b :: r) h1)

theorem has_pair_cons_of {f v : String} (a : String) {t : List String}
    (h : has_pair f v t = true) : has_pair f v (a :: t) = true := by
  cases t with
  | nil => simp [has_pair] at h
  | cons b r => simp [has_pair] at h ⊢; tauto

theorem has_pair_append_right {f v : String} (l1 : List String) {l2 : List String}
    (h : has_pair f v l2 = true) : has_pair f v (l1 ++ l2) = true := by
  induction l1 with
  | nil => exact h
  | cons a t ih => exact has_pair_cons_of a ih

theorem has_pair_split {f v v0 : String} :
    ∀ (l1 l2 : List String), f ∉ l1 → f ∉ l2 → v0 ≠ f →
      (has_pair f v (l1 ++ f :: v0 :: l2) = true ↔ v = v0)
  | [], l2, _, h2, h3 => by
      have hf : f ∉ v0 :: l2 := by
        intro hm
        rcases List.mem_cons.mp hm with hm | hm
        · exact h3 hm.symm
        · exact h2 hm
      simp [has_pair, has_pair_eq_false_of_not_mem (v0 :: l2) hf]
      tauto
  | a :: t, l2, h1, h2, h3 => by
      have ha : ¬(a = f) := fun he => h1 (by simp [he])
      have ht : f ∉ t := fun hm => h1 (List.mem_cons_of_mem a hm)
      cases t with
      | nil =>
        have hl := has_pair_split (f := f) (v := v) [] l2 (by simp) h2 h3
        simp only [List.nil_append] at hl
        simpa [has_pair, ha] using hl
      | cons b t2 =>
        have hl := has_pair_split (f := f) (v := v) (b :: t2) l2 ht h2 h3
        have hb : ¬(a = f ∧ b = v) := fun hc => ha hc.1
        constructor
        · intro hp
          have h0 : a = f ∧ b = v ∨ has_pair f v (b :: (t2 ++ f :: v0 :: l2)) = true := by
            simpa [has_pair] using hp
          rcases h0 with h4 | h4
          · exact absurd h4 hb
          · exact hl.mp h4
        · intro hv
          have := hl.mpr hv
          exact has_pair_cons_of a this

/-! Membership characterizations of the two halves of the built argv. -/

theorem mem_cmd_head {x : String} {s : DdbConfig} {arch : Arch} {agentJar installedDir : String} :
    x ∈ cmd_head s arch agentJar installedDir ↔
      x = "java" ∨ (arch = Arch.arm64 ∧ x = "-XX:UseSVE=0") ∨
        x = "-Xmx" ++ s.heap_size ∨ x = "-javaagent:" ++ agentJar ∨
          x = "-Djava.library.path=" ++ (installedDir ++ "/DynamoDBLocal_lib") ∨
            x = "-jar" ∨ x = installedDir ++ "/DynamoDBLocal.jar" := by
  cases arch <;> simp [cmd_head, get_java_vm_options]

theorem mem_flag_tail {x : String} {s : DdbConfig} :
    x ∈ flag_tail s ↔
      (s.delay_transient_statuses = true ∧ x = "-delayTransientStatuses") ∨
        (s.optimize_db_before_startup = true ∧ x = "-optimizeDbBeforeStartup") ∨
          (s.share_db = true ∧ x = "-sharedDb") := by
  unfold flag_tail
  split_ifs <;> simp_all

theorem mem_param_list {x : String} {s : DdbConfig} :
    x ∈ param_list s ↔
      x = "-port" ∨ x = Nat.repr s.port ∨
        (s.db_path = none ∧ x = "-inMemory") ∨
          (∃ p, s.db_path = some p ∧ ¬p = "" ∧ (x = "-dbPath" ∨ x = p)) ∨
            (s.delay_transient_statuses = true ∧ x = "-delayTransientStatuses") ∨
              (s.optimize_db_before_startup = true ∧ x = "-optimizeDbBeforeStartup") ∨
                (s.share_db = true ∧ x = "-sharedDb") := by
  rcases hdb : s.db_path with _ | p
  · simp [param_list, dbPathArgs, in_memory, hdb, mem_flag_tail]
  · by_cases hp : p = ""
    · simp [param_list, dbPathArgs, in_memory, hdb, hp, mem_flag_tail]
    · simp [param_list, dbPathArgs, in_memory, hdb, hp, mem_flag_tail]
      tauto

theorem mem_create_shell_command {x : String} {s : DdbConfig} {arch : Arch}
    {agentJar installedDir : String} :
    x ∈ create_shell_command s arch agentJar installedDir ↔
      x ∈ cmd_head s arch agentJar installedDir ∨ x ∈ param_list s := by
  simp [create_shell_command]

/-! Helper facts: none of the parameter flag tokens can occur in the head of
the command line (under any config, architecture and install paths). -/

theorem not_mem_cmd_head {t : String} {s : DdbConfig} {arch : Arch}
    {agentJar installedDir : String}
    (h1 : t ≠ "java") (h2 : t ≠ "-XX:UseSVE=0") (h3 : t ≠ "-jar")
    (h4 : t.data.take ("-Xmx").data.length ≠ ("-Xmx").data)
    (h5 : t.data.take ("-javaagent:").data.length ≠ ("-javaagent:").data)
    (h6 : t.data.take ("-Djava.library.path=").data.length ≠ ("-Djava.library.path=").data)
    (h7 : t.data.drop (t.data.length - ("/DynamoDBLocal.jar").data.length) ≠
      ("/DynamoDBLocal.jar").data) :
    t ∉ cmd_head s arch agentJar installedDir := by
  intro hm
  rcases mem_cmd_head.mp hm with h | h | h | h | h | h | h
  · exact h1 h
  · exact h2 h.2
  · exact append_ne_of_take_ne _ _ _ h4 h.symm
  · exact append_ne_of_take_ne _ _ _ h5 h.symm
  · exact append_ne_of_take_ne _ _ _ h6 h.symm
  · exact h3 h
  · exact append_ne_of_drop_ne _ _ _ h7 h.symm

theorem inMemory_not_in_cmd_head {s : DdbConfig} {arch : Arch} {agentJar installedDir : String} :
    ("-inMemory") ∉ cmd_head s arch agentJar installedDir :=
  not_mem_cmd_head (by decide) (by decide) (by decide) (by decide) (by decide) (by decide)
    (by decide)

theorem dbPath_not_in_cmd_head {s : DdbConfig} {arch : Arch} {agentJar installedDir : String} :
    ("-dbPath") ∉ cmd_head s arch agentJar installedDir :=
  not_mem_cmd_head (by decide) (by decide) (by decide) (by decide) (by decide) (by decide)
    (by decide)

theorem delay_not_in_cmd_head {s : DdbConfig} {arch : Arch} {agentJar installedDir : String} :
    ("-delayTransientStatuses") ∉ cmd_head s arch agentJar installedDir :=
  not_mem_cmd_head (by decide) (by decide) (by decide) (by decide) (by decide) (by decide)
    (by decide)

theorem optimize_not_in_cmd_head {s : DdbConfig} {arch : Arch} {agentJar installedDir : String} :
    ("-optimizeDbBeforeStartup") ∉ cmd_head s arch agentJar installedDir :=
  not_mem_cmd_head (by decide) (by decide) (by decide) (by decide) (by decide) (by decide)
    (by decide)

theorem sharedDb_not_in_cmd_head {s : DdbConfig} {arch : Arch} {agentJar installedDir : String} :
    ("-sharedDb") ∉ cmd_head s arch agentJar installedDir :=
  not_mem_cmd_head (by decide) (by decide) (by decide) (by decide) (by decide) (by decide)
    (by decide)

/-! Claim C3: `-inMemory` iff no data path, `-dbPath X` iff data path `X`. -/

theorem inMemory_mem_iff (s : DdbConfig) (arch : Arch) (agentJar installedDir : String)
    (hdb : ∀ p, s.db_path = some p → p ≠ "-inMemory") :
    ("-inMemory") ∈ create_shell_command s arch agentJar installedDir ↔ s.db_path = none := by
  rw [mem_create_shell_command]
  constructor
  · rintro (h | h)
    · exact absurd h inMemory_not_in_cmd_head
    · rcases mem_param_list.mp h with h | h | h | ⟨p, hp, hne, hor⟩ | h | h | h
      · exact absurd h (by decide)
      · exact absurd h.symm (repr_ne_of_dash _ _ (by decide))
      · exact h.1
      · rcases hor with h | h
        · exact absurd h (by decide)
        · exact absurd h.symm (hdb p hp)
      · exact absurd h.2 (by decide)
      · exact absurd h.2 (by decide)
      · exact absurd h.2 (by decide)
  · intro h
    exact Or.inr (mem_param_list.mpr (Or.inr (Or.inr (Or.inl ⟨h, rfl⟩))))

theorem dbPath_mem_iff (s : DdbConfig) (arch : Arch) (agentJar installedDir : String) :
    ("-dbPath") ∈ create_shell_command s arch agentJar installedDir ↔
      ∃ p, s.db_path = some p ∧ ¬p = "" := by
  rw [mem_create_shell_command]
  constructor
  · rintro (h | h)
    · exact absurd h dbPath_not_in_cmd_head
    · rcases mem_param_list.mp h with h | h | h | ⟨p, hp, hne, hor⟩ | h | h | h
      · exact absurd h (by decide)
      · exact absurd h.symm (repr_ne_of_dash _ _ (by decide))
      · exact absurd h.2 (by decide)
      · exact ⟨p, hp, hne⟩
      · exact absurd h.2 (by decide)
      · exact absurd h.2 (by decide)
      · exact absurd h.2 (by decide)
  · rintro ⟨p, hp, hne⟩
    exact Or.inr (mem_param_list.mpr (Or.inr (Or.inr (Or.inr (Or.inl ⟨p, hp, hne, Or.inl rfl⟩)))))

/-- C3 (amended): for every server configuration whose data path, when set, is
a non-empty string distinct from the literal tokens `-inMemory` and `-dbPath`,
the built argv contains `-inMemory` iff `db_path` is none, contains the
adjacent pair `-dbPath X` iff `db_path` is set to `X`, and the two flags never
co-occur. -/
theorem c3_db_path_flags (s : DdbConfig) (arch : Arch) (agentJar installedDir : String)
    (hdb : ∀ p, s.db_path = some p → ¬p = "" ∧ p ≠ "-inMemory" ∧ p ≠ "-dbPath") :
    (("-inMemory") ∈ create_shell_command s arch agentJar installedDir ↔ s.db_path = none) ∧
      (∀ X, has_pair ("-dbPath") X (create_shell_command s arch agentJar installedDir) = true ↔
        s.db_path = some X) ∧
      ¬(("-inMemory") ∈ create_shell_command s arch agentJar installedDir ∧
        ("-dbPath") ∈ create_shell_command s arch agentJar installedDir) := by
  have hin := inMemory_mem_iff s arch agentJar installedDir (fun p hp => ((hdb p hp).2).1)
  have hdm := dbPath_mem_iff s arch agentJar installedDir
  refine ⟨hin, ?_, ?_⟩
  · intro X
    rcases hs : s.db_path with _ | p
    · have hnm : ("-dbPath") ∉ create_shell_command s arch agentJar installedDir := by
        intro hm
        rcases hdm.mp hm with ⟨p, hp, _⟩
        rw [hs] at hp
        exact Option.noConfusion hp
      simp [has_pair_eq_false_of_not_mem _ hnm]
    · obtain ⟨hne, hnin, hndb⟩ := hdb p hs
      have argv_eq : create_shell_command s arch agentJar installedDir =
          (cmd_head s arch agentJar installedDir ++ ["-port", Nat.repr s.port]) ++
            ("-dbPath") :: p :: flag_tail s := by
        simp [create_shell_command, param_list, dbPathArgs, in_memory, hs, hne]
      have hfL : ("-dbPath") ∉
          cmd_head s arch agentJar installedDir ++ ["-port", Nat.repr s.port] := by
        intro hm
        rcases List.mem_append.mp hm with hm | hm
        · exact dbPath_not_in_cmd_head hm
        · rcases List.mem_cons.mp hm with hm | hm
          · exact absurd hm (by decide)
          · rcases List.mem_cons.mp hm with hm | hm
            · exact absurd hm.symm (repr_ne_of_dash _ _ (by decide))
            · exact List.not_mem_nil _ hm
      have hfT : ("-dbPath") ∉ flag_tail s := by
        intro hm
        rcases mem_flag_tail.mp hm with h | h | h
        · exact absurd h.2 (by decide)
        · exact absurd h.2 (by decide)
        · exact absurd h.2 (by decide)
      have hsp := has_pair_split (f := "-dbPath") (v := X)
        (cmd_head s arch agentJar installedDir ++ ["-port", Nat.repr s.port])
        (flag_tail s) hfL hfT hndb
      rw [argv_eq, hsp]
      simp [eq_comm]
  · rintro ⟨h1, h2⟩
    have hn := hin.mp h1
    rcases hdm.mp h2 with ⟨p, hp, _⟩
    rw [hn] at hp
    exact Option.noConfusion hp

/-- Concrete configuration whose data path is the empty string: in Python this
is a truthy-false value, so the builder emits neither `-inMemory` nor
`-dbPath`. -/
def c3_cex_config : DdbConfig :=
  { port := 8000, host := "localhost", db_path := some (""), heap_size := "256m",
    delay_transient_statuses := false, optimize_db_before_startup := false,
    share_db := false, cors := none }

/-- C3 counterexample: `db_path` is set to `""`, yet the built argv does not
contain the pair `-dbPath ""`, contradicting the claim that the pair is
present iff the data path is set to that value. -/
theorem c3_counterexample :
    c3_cex_config.db_path = some ("") ∧
      has_pair ("-dbPath") ("")
        (create_shell_command c3_cex_config Arch.amd64 ("/opt/agent.jar") ("/opt/ddb")) =
          false := by
  decide

/-- A well-behaved concrete configuration used to witness the amended C3. -/
def c3_witness_config : DdbConfig :=
  { port := 4566, host := "localhost", db_path := some ("/data/dynamodb"),
    heap_size := "256m", delay_transient_statuses := false,
    optimize_db_before_startup := true, share_db := false, cors := none }

theorem c3_db_path_flags_witness :
    (("-inMemory") ∈
        create_shell_command c3_witness_config Arch.amd64 ("/opt/agent.jar") ("/opt/ddb") ↔
      c3_witness_config.db_path = none) ∧
      (has_pair ("-dbPath") ("/data/dynamodb")
          (create_shell_command c3_witness_config Arch.amd64 ("/opt/agent.jar") ("/opt/ddb")) =
            true ↔
        c3_witness_config.db_path = some ("/data/dynamodb")) ∧
      ¬(("-inMemory") ∈
          create_shell_command c3_witness_config Arch.amd64 ("/opt/agent.jar") ("/opt/ddb") ∧
        ("-dbPath") ∈
          create_shell_command c3_witness_config Arch.amd64 ("/opt/agent.jar") ("/opt/ddb")) := by
  obtain ⟨h1, h2, h3⟩ :=
    c3_db_path_flags c3_witness_config Arch.amd64 ("/opt/agent.jar") ("/opt/ddb")
      (by
        intro p hp
        have hq : some ("/data/dynamodb") = some p := hp
        injection hq with hq
        subst hq
        exact ⟨by decide, by decide, by decide⟩)
  exact ⟨h1, h2 ("/data/dynamodb"), h3⟩

/-! Claim C4: the three independent boolean feature flags. -/

/-- C4 (amended): for every server configuration whose data path, when set, is
not itself one of the three boolean flag tokens, each of
`-delayTransientStatuses`, `-optimizeDbBeforeStartup` and `-sharedDb` appears
in the built argv iff its configuration field is true; the full universal
quantification over the other fields expresses the mutual independence of the
three flags. -/
theorem c4_bool_flags (s : DdbConfig) (arch : Arch) (agentJar installedDir : String)
    (hdb : ∀ p, s.db_path = some p →
      p ≠ "-delayTransientStatuses" ∧ p ≠ "-optimizeDbBeforeStartup" ∧ p ≠ "-sharedDb") :
    (("-delayTransientStatuses") ∈ create_shell_command s arch agentJar installedDir ↔
        s.delay_transient_statuses = true) ∧
      (("-optimizeDbBeforeStartup") ∈ create_shell_command s arch agentJar installedDir ↔
        s.optimize_db_before_startup = true) ∧
      (("-sharedDb") ∈ create_shell_command s arch agentJar installedDir ↔
        s.share_db = true) := by
  refine ⟨⟨?_, ?_⟩, ⟨?_, ?_⟩, ⟨?_, ?_⟩⟩
  · intro h
    rcases mem_create_shell_command.mp h with h | h
    · exact absurd h delay_not_in_cmd_head
    · rcases mem_param_list.mp h with h | h | h | ⟨p, hp, hne, hor⟩ | h | h | h
      · exact absurd h (by decide)
      · exact absurd h.symm (repr_ne_of_dash _ _ (by decide))
      · exact absurd h.2 (by decide)
      · rcases hor with h | h
        · exact absurd h (by decide)
        · exact absurd h.symm ((hdb p hp).1)
      · exact h.1
      · exact absurd h.2 (by decide)
      · exact absurd h.2 (by decide)
  · intro h
    exact mem_create_shell_command.mpr
      (Or.inr (mem_param_list.mpr (Or.inr (Or.inr (Or.inr (Or.inr (Or.inl ⟨h, rfl⟩)))))))
  · intro h
    rcases mem_create_shell_command.mp h with h | h
    · exact absurd h optimize_not_in_cmd_head
    · rcases mem_param_list.mp h with h | h | h | ⟨p, hp, hne, hor⟩ | h | h | h
      · exact absurd h (by decide)
      · exact absurd h.symm (repr_ne_of_dash _ _ (by decide))
      · exact absurd h.2 (by decide)
      · rcases hor with h | h
        · exact absurd h (by decide)
        · exact absurd h.symm ((hdb p hp).2.1)
      · exact absurd h.2 (by decide)
      · exact h.1
      · exact absurd h.2 (by decide)
  · intro h
    exact mem_create_shell_command.mpr
      (Or.inr (mem_param_list.mpr
        (Or.inr (Or.inr (Or.inr (Or.inr (Or.inr (Or.inl ⟨h, rfl⟩))))))))
  · intro h
    rcases mem_create_shell_command.mp h with h | h
    · exact absurd h sharedDb_not_in_cmd_head
    · rcases mem_param_list.mp h with h | h | h | ⟨p, hp, hne, hor⟩ | h | h | h
      · exact absurd h (by decide)
      · exact absurd h.symm (repr_ne_of_dash _ _ (by decide))
      · exact absurd h.2 (by decide)
      · rcases hor with h | h
        · exact absurd h (by decide)
        · exact absurd h.symm ((hdb p hp).2.2)
      · exact absurd h.2 (by decide)
      · exact absurd h.2 (by decide)
      · exact h.1
  · intro h
    exact mem_create_shell_command.mpr
      (Or.inr (mem_param_list.mpr
        (Or.inr (Or.inr (Or.inr (Or.inr (Or.inr (Or.inr ⟨h, rfl⟩))))))))

/-- Concrete configuration whose data path is the literal `-sharedDb` token. -/
def c4_cex_config : DdbConfig :=
  { port := 8000, host := "localhost", db_path := some ("-sharedDb"),
    heap_size := "256m", delay_transient_statuses := false,
    optimize_db_before_startup := false, share_db := false, cors := none }

/-- C4 counterexample: `share_db` is false, yet `-sharedDb` appears in the
built argv (as the value of the `-dbPath` argument), so the claimed
equivalence fails for an arbitrary `ServerConfig`. -/
theorem c4_counterexample :
    c4_cex_config.share_db = false ∧
      ("-sharedDb") ∈
        create_shell_command c4_cex_config Arch.amd64 ("/opt/agent.jar") ("/opt/ddb") := by
  decide

/-- A well-behaved concrete configuration used to witness the amended C4. -/
def c4_witness_config : DdbConfig :=
  { port := 4566, host := "localhost", db_path := some ("/data/dynamodb"),
    heap_size := "256m", delay_transient_statuses := true,
    optimize_db_before_startup := false, share_db := true, cors := none }

theorem c4_bool_flags_witness :
    (("-delayTransientStatuses") ∈
        create_shell_command c4_witness_config Arch.amd64 ("/opt/agent.jar") ("/opt/ddb") ↔
      c4_witness_config.delay_transient_statuses = true) ∧
      (("-optimizeDbBeforeStartup") ∈
          create_shell_command c4_witness_config Arch.amd64 ("/opt/agent.jar") ("/opt/ddb") ↔
        c4_witness_config.optimize_db_before_startup = true) ∧
      (("-sharedDb") ∈
          create_shell_command c4_witness_config Arch.amd64 ("/opt/agent.jar") ("/opt/ddb") ↔
        c4_witness_config.share_db = true) :=
  c4_bool_flags c4_witness_config Arch.amd64 ("/opt/agent.jar") ("/opt/ddb")
    (by
      intro p hp
      have hq : some ("/data/dynamodb") = some p := hp
      injection hq with hq
      subst hq
      exact ⟨by decide, by decide, by decide⟩)

/-! Claim C9: the architecture-conditional JVM workaround flag and the
always-present port flag. -/

/-- C9 (amended): for every server configuration whose data path, when set, is
not the literal workaround token, the built argv contains `-XX:UseSVE=0` iff
the architecture is arm64 (the lookup in `_get_java_vm_options` is keyed on
the architecture only), and the `-port` flag is always present. -/
theorem c9_sve_workaround_and_port (s : DdbConfig) (arch : Arch)
    (agentJar installedDir : String)
    (hdb : ∀ p, s.db_path = some p → p ≠ "-XX:UseSVE=0") :
    (("-XX:UseSVE=0") ∈ create_shell_command s arch agentJar installedDir ↔
        arch = Arch.arm64) ∧
      ("-port") ∈ create_shell_command s arch agentJar installedDir := by
  constructor
  · constructor
    · intro h
      rcases mem_create_shell_command.mp h with h | h
      · rcases mem_cmd_head.mp h with h | h | h | h | h | h | h
        · exact absurd h (by decide)
        · exact h.1
        · exact absurd h.symm (append_ne_of_take_ne _ _ _ (by decide))
        · exact absurd h.symm (append_ne_of_take_ne _ _ _ (by decide))
        · exact absurd h.symm (append_ne_of_take_ne _ _ _ (by decide))
        · exact absurd h (by decide)
        · exact absurd h.symm (append_ne_of_drop_ne _ _ _ (by decide))
      · rcases mem_param_list.mp h with h | h | h | ⟨p, hp, hne, hor⟩ | h | h | h
        · exact absurd h (by decide)
        · exact absurd h.symm (repr_ne_of_dash _ _ (by decide))
        · exact absurd h.2 (by decide)
        · rcases hor with h | h
          · exact absurd h (by decide)
          · exact absurd h.symm (hdb p hp)
        · exact absurd h.2 (by decide)
        · exact absurd h.2 (by decide)
        · exact absurd h.2 (by decide)
    · intro h
      exact mem_create_shell_command.mpr (Or.inl (mem_cmd_head.mpr (Or.inr (Or.inl ⟨h, rfl⟩))))
  · exact mem_create_shell_command.mpr (Or.inr (mem_param_list.mpr (Or.inl rfl)))

/-- Concrete configuration whose data path is the literal workaround token. -/
def c9_cex_config : DdbConfig :=
  { port := 8000, host := "localhost", db_path := some ("-XX:UseSVE=0"),
    heap_size := "256m", delay_transient_statuses := false,
    optimize_db_before_startup := false, share_db := false, cors := none }

/-- C9 counterexample: on amd64 (not the workaround architecture) the token
`-XX:UseSVE=0` still appears in the built argv, as the value of the `-dbPath`
argument. -/
theorem c9_counterexample :
    ("-XX:UseSVE=0") ∈
        create_shell_command c9_cex_config Arch.amd64 ("/opt/agent.jar") ("/opt/ddb") ∧
      Arch.amd64 ≠ Arch.arm64 := by
  decide

/-- A well-behaved concrete configuration used to witness the amended C9. -/
def c9_witness_config : DdbConfig :=
  { port := 443, host := "localhost", db_path := some ("/data/dynamodb"),
    heap_size := "1G", delay_transient_statuses := false,
    optimize_db_before_startup := false, share_db := false, cors := none }

theorem c9_sve_workaround_and_port_witness :
    (("-XX:UseSVE=0") ∈
        create_shell_command c9_witness_config Arch.arm64 ("/opt/agent.jar") ("/opt/ddb") ↔
      Arch.arm64 = Arch.arm64) ∧
      ("-port") ∈
        create_shell_command c9_witness_config Arch.arm64 ("/opt/agent.jar") ("/opt/ddb") :=
  c9_sve_workaround_and_port c9_witness_config Arch.arm64 ("/opt/agent.jar") ("/opt/ddb")
    (by
      intro p hp
      have hq : some ("/data/dynamodb") = some p := hp
      injection hq with hq
      subst hq
      decide)

/-! Embedding of `DynamodbServer.__init__`. The surrounding process
configuration (directories, environment options, the fresh TCP port returned
by `get_free_tcp_port`, and `os.path.abspath`) is passed in explicitly as an
`InitEnv`. -/

/-- The external inputs read by `DynamodbServer.__init__`: `config.dirs.data`,
`config.dirs.tmp`, `is_persistence_enabled()`, `config.SNAPSHOT_SAVE_STRATEGY`,
the `DYNAMODB_*` environment options, the result of `get_free_tcp_port()` and
the `os.path.abspath` function. An empty `dirs_data` models an unset data
directory (falsy in Python). -/
structure InitEnv where
  dirs_data : String
  dirs_tmp : String
  persistence_enabled : Bool
  save_strategy : String
  env_in_memory : Bool
  env_heap_size : String
  env_delay : Bool
  env_optimize : Bool
  env_share : Bool
  env_cors : Option String
  free_tcp_port : Nat
  abspath : String → String

/-- Embedding of `port = port or get_free_tcp_port()`: any falsy port argument (absent or
zero) is replaced by a freshly allocated free TCP port. -/
def resolve_port (port : Option Nat) (free : Nat) : Nat :=
  match port with
  | none => free
  | some p => if p = 0 then free else p

/-- The `db_path` computation of `__init__`, in source order: default to the
configured data directory when the argument is falsy, redirect to a temporary
directory under MANUAL snapshot strategy, force `None` under
`DYNAMODB_IN_MEMORY`, and finally make a truthy path absolute. -/
def init_db_path (e : InitEnv) (db_path : Option String) : Option String :=
  let p1 := if optStrTruthy db_path = false ∧ e.dirs_data ≠ "" then
    some (e.dirs_data ++ "/dynamodb") else db_path
  let p2 := if e.persistence_enabled = true ∧ e.save_strategy = "MANUAL" then
    some (e.dirs_tmp ++ "/dynamodb") else p1
  let p3 := if e.env_in_memory = true then none else p2
  match p3 with
  | some q => if q = "" then some q else some (e.abspath q)
  | none => none

/-- Embedding of `DynamodbServer.__init__`: builds the configuration record of a server. -/
def mk_server (e : InitEnv) (port : Option Nat) (host : String) (db_path : Option String) :
    DdbConfig :=
  { port := resolve_port port e.free_tcp_port
    host := host
    db_path := init_db_path e db_path
    heap_size := e.env_heap_size
    delay_transient_statuses := e.env_delay
    optimize_db_before_startup := e.env_optimize
    share_db := e.env_share
    cors := e.env_cors }

/-- C8: under `DYNAMODB_IN_MEMORY` the `db_path` of the constructed server is
`none` — whatever the `db_path` argument, configured data directory and
manual-snapshot temporary directory are — and for every configuration the
`in_memory` property holds iff `db_path` is `none`. -/
theorem c8_in_memory_forces_no_db_path :
    (∀ (e : InitEnv) (port : Option Nat) (host : String) (db : Option String),
      e.env_in_memory = true →
        (mk_server e port host db).db_path = none ∧
          in_memory (mk_server e port host db) = true) ∧
      ∀ s : DdbConfig, in_memory s = true ↔ s.db_path = none := by
  constructor
  · intro e port host db h
    constructor
    · simp [mk_server, init_db_path, h]
    · simp [mk_server, init_db_path, in_memory, h]
  · intro s
    simp [in_memory, Option.isNone_iff_eq_none]

/-- A concrete environment for the constructor witnesses. -/
def sample_env : InitEnv :=
  { dirs_data := "/var/lib/localstack"
    dirs_tmp := "/tmp/localstack"
    persistence_enabled := true
    save_strategy := "MANUAL"
    env_in_memory := true
    env_heap_size := "256m"
    env_delay := false
    env_optimize := false
    env_share := false
    env_cors := none
    free_tcp_port := 45678
    abspath := id }

theorem c8_in_memory_forces_no_db_path_witness :
    ((mk_server sample_env (some 8000) ("localhost") (some ("/data/dynamodb"))).db_path = none ∧
      in_memory (mk_server sample_env (some 8000) ("localhost") (some ("/data/dynamodb"))) =
        true) ∧
      (in_memory (mk_server sample_env (some 8000) ("localhost") (some ("/data/dynamodb"))) =
          true ↔
        (mk_server sample_env (some 8000) ("localhost") (some ("/data/dynamodb"))).db_path =
          none) :=
  ⟨c8_in_memory_forces_no_db_path.1 sample_env (some 8000) ("localhost")
      (some ("/data/dynamodb")) rfl,
    c8_in_memory_forces_no_db_path.2 (mk_server sample_env (some 8000) ("localhost")
      (some ("/data/dynamodb")))⟩

/-- C10: a falsy port argument (absent, `None`, or `0`) is replaced by the
freshly allocated free TCP port; a non-zero argument is kept; and as long as
the allocator returns a non-zero port the resolved port is never the literal
`0`. -/
theorem c10_port_resolution :
    (∀ (e : InitEnv) (host : String) (db : Option String),
      (mk_server e none host db).port = e.free_tcp_port ∧
        (mk_server e (some 0) host db).port = e.free_tcp_port) ∧
      (∀ (e : InitEnv) (host : String) (db : Option String) (p : Nat), p ≠ 0 →
        (mk_server e (some p) host db).port = p) ∧
      ∀ (e : InitEnv) (host : String) (db : Option String) (port : Option Nat),
        e.free_tcp_port ≠ 0 → (mk_server e port host db).port ≠ 0 := by
  refine ⟨?_, ?_, ?_⟩
  · intro e host db
    exact ⟨rfl, rfl⟩
  · intro e host db p hp
    simp [mk_server, resolve_port, hp]
  · intro e host db port hf
    rcases port with _ | p
    · exact hf
    · by_cases hp : p = 0
      · simpa [mk_server, resolve_port, hp] using hf
      · simp [mk_server, resolve_port, hp]

theorem c10_port_resolution_witness :
    ((mk_server sample_env none ("localhost") none).port = sample_env.free_tcp_port ∧
      (mk_server sample_env (some 0) ("localhost") none).port = sample_env.free_tcp_port) ∧
      (mk_server sample_env (some 8000) ("localhost") none).port = 8000 ∧
      (mk_server sample_env (some 0) ("localhost") none).port ≠ 0 :=
  ⟨c10_port_resolution.1 sample_env ("localhost") none,
    c10_port_resolution.2.1 sample_env ("localhost") none 8000 (by decide),
    c10_port_resolution.2.2 sample_env ("localhost") none (some 0) (by decide)⟩

/-! Embedding of the supervisor operations `start_dynamodb` / `stop_dynamodb`.

The `Server` thread abstraction, the `retry` helper and the port waiter live
outside the source file embedded here; their behavior is modelled from the spec and made
explicit through an event trace (`Ev`) and environment records
(probe outcomes, port-poll outcomes). The control flow of the two operations
themselves follows the source line by line. -/

/-- Externally visible actions of the supervisor, in the order performed. -/
inductive Ev
  | clear_start_flag
  | clear_stop_flag
  | mkdir_ev (path : String)
  | spawn_ev
  | probe_ev (i : Nat)
  | sleep_ev (seconds : ℚ)
  | auto_restart_off
  | shutdown_ev
  | join_ev (timeout : ℚ)
  | port_poll (sleep_time : ℚ) (tries : Nat)
  | pid_lookup (pid : Nat)
  | terminate_ev
  | kill_ev
deriving DecidableEq, Repr

/-- The error surfaced by a failed start: the health check never passed. -/
inductive StartErr
  | health_check_timeout
deriving DecidableEq, Repr

/-- The error escaping a failed stop: the port never closed. -/
inductive StopErr
  | port_still_open
deriving DecidableEq, Repr

/-- The mutable state of a `DynamodbServer` instance: its configuration, the
`threading.Event` start/stop flags of the `Server` base class, the watcher
thread handle with the OS pid of the child (`self._thread`), whether the child
process is alive and network-reachable, and a spawn counter used to state
idempotence. -/
structure DdbState where
  conf : DdbConfig
  started_flag : Bool
  stopped_flag : Bool
  thread_pid : Option Nat
  proc_running : Bool
  healthy : Bool
  spawns : Nat
deriving DecidableEq, Repr

/-- Modelled from the spec: `IsRunning` is the non-blocking process-alive
liveness check of the underlying `Server`. -/
def is_running (s : DdbState) : Bool := s.proc_running

/-- Modelled from the spec: `IsUp` is the network-reachability check — a fresh
health probe, true exactly when the child currently answers. -/
def is_up (s : DdbState) : Bool := s.healthy

/-- Modelled from the spec: the thread-based `Server.start` — it refuses a
second start unless the start/stop flags were reset, and otherwise spawns the
child via the command builder, records the process handle, and reports that a
spawn happened. `pid` is the OS-assigned process id of the new child. -/
def server_start (pid : Nat) (s : DdbState) : Bool × DdbState × List Ev :=
  if s.started_flag then (false, s, [])
  else
    (true,
      { s with started_flag := true, thread_pid := some pid, proc_running := true,
               spawns := s.spawns + 1 },
      [Ev.spawn_ev])

/-- Modelled from the spec: the bounded retry loop (`WaitUntilUp`) — up to
`n` probe attempts spaced `st` seconds apart, returning the index of the
first success and `none` after exhausting all attempts. Each failed attempt
logs a probe event followed by a sleep event. -/
def retry_aux (probe : Nat → Bool) (st : ℚ) : Nat → Nat → Option Nat × List Ev
  | 0, _ => (none, [])
  | Nat.succ k, i =>
    if probe i then (some i, [Ev.probe_ev i])
    else
      let r := retry_aux probe st k (i + 1)
      (r.1, Ev.probe_ev i :: Ev.sleep_ev st :: r.2)

/-- The loop `retry(function, sleep, retries)` started from attempt 0. -/
def retry_probe (probe : Nat → Bool) (tries : Nat) (st : ℚ) : Option Nat × List Ev :=
  retry_aux probe st tries 0

/-- Embedding of `DynamodbServer.wait_for_dynamodb`: `retry(self.check_dynamodb, sleep=0.4,
retries=10)`. -/
def wait_for_dynamodb (probe : Nat → Bool) : Option Nat × List Ev :=
  retry_probe probe 10 (4 / 10)

/-- Embedding of `DynamodbServer.start_dynamodb`: return immediately when already running
and up; otherwise reset the start/stop flags, create the data directory when
the path is truthy, spawn via `Server.start`, and block on the health
retry loop, surfacing its timeout. A passed health check means the server is
now reachable (`healthy`). -/
def start_dynamodb (pid : Nat) (probe : Nat → Bool) (s : DdbState) :
    Except StartErr (Bool × DdbState) × List Ev :=
  if is_running s && is_up s then (Except.ok (true, s), [])
  else
    let s1 : DdbState := { s with started_flag := false, stopped_flag := false }
    let mk : List Ev :=
      if optStrTruthy s.conf.db_path then [Ev.mkdir_ev (s.conf.db_path.getD (""))] else []
    let st := server_start pid s1
    let w := wait_for_dynamodb probe
    match w.1 with
    | some _ =>
      (Except.ok (st.1, { st.2.1 with healthy := true }),
        [Ev.clear_start_flag, Ev.clear_stop_flag] ++ mk ++ st.2.2 ++ w.2)
    | none =>
      (Except.error StartErr.health_check_timeout,
        [Ev.clear_start_flag, Ev.clear_stop_flag] ++ mk ++ st.2.2 ++ w.2)

/-- The external outcomes met by one `stop_dynamodb` call: whether the first
port poll (10 tries at 0.8 s) finds the port closed, whether the re-poll
after the forced kill (8 tries at 0.5 s) does, and the outcomes of the
`terminate` and `kill` calls (both wrapped in `run_safe`, hence swallowed). -/
structure StopEnv where
  graceful_poll_ok : Bool
  kill_poll_ok : Bool
  terminate_ok : Bool
  kill_ok : Bool
deriving DecidableEq, Repr

/-- Embedding of `DynamodbServer.stop_dynamodb`: no-op when no thread handle exists;
otherwise disable auto-restart, graceful shutdown, join with a 10 s timeout,
poll the port closed (10 tries, 0.8 s). Only when that fails: look up the
child pid, terminate and kill (errors swallowed by `run_safe`), and re-poll
(8 tries, 0.5 s); that final poll raises when the port is still open. -/
def stop_dynamodb (s : DdbState) (env : StopEnv) : Except StopErr DdbState × List Ev :=
  match s.thread_pid with
  | none => (Except.ok s, [])
  | some pid =>
    let tr1 : List Ev :=
      [Ev.auto_restart_off, Ev.shutdown_ev, Ev.join_ev 10, Ev.port_poll (8 / 10) 10]
    if env.graceful_poll_ok then
      (Except.ok { s with proc_running := false, healthy := false }, tr1)
    else
      let tr2 := tr1 ++ [Ev.pid_lookup pid, Ev.terminate_ev, Ev.kill_ev, Ev.port_poll (5 / 10) 8]
      if env.kill_poll_ok then
        (Except.ok { s with proc_running := false, healthy := false }, tr2)
      else
        (Except.error StopErr.port_still_open, tr2)

/-- Configuration shared by the concrete supervisor states below. -/
def sup_conf : DdbConfig :=
  { port := 8000, host := "localhost", db_path := some ("/data/dynamodb"),
    heap_size := "256m", delay_transient_statuses := false,
    optimize_db_before_startup := false, share_db := false, cors := none }

/-- A server that was never started: no thread handle, nothing running. -/
def fresh_state : DdbState :=
  { conf := sup_conf, started_flag := false, stopped_flag := false, thread_pid := none,
    proc_running := false, healthy := false, spawns := 0 }

/-- A healthy running server with one spawned child. -/
def running_state : DdbState :=
  { conf := sup_conf, started_flag := true, stopped_flag := false, thread_pid := some 4242,
    proc_running := true, healthy := true, spawns := 1 }

/-- A stop environment in which the graceful phase succeeds. -/
def stop_env_ok : StopEnv :=
  { graceful_poll_ok := true, kill_poll_ok := true, terminate_ok := true, kill_ok := true }

/-- C6: stopping a server whose thread handle is `none` (no process was ever
started) is a no-op — no error, no action, state unchanged. -/
theorem c6_stop_no_thread_noop (s : DdbState) (env : StopEnv)
    (h : s.thread_pid = none) : stop_dynamodb s env = (Except.ok s, []) := by
  simp [stop_dynamodb, h]

theorem c6_stop_no_thread_noop_witness :
    fresh_state.thread_pid = none ∧
      stop_dynamodb fresh_state stop_env_ok = (Except.ok fresh_state, []) :=
  ⟨rfl, c6_stop_no_thread_noop fresh_state stop_env_ok rfl⟩

/-- C5: with a live thread handle, stop performs exactly the escalation
sequence of the source: auto-restart off, graceful shutdown, join (10 s),
port poll (0.8 s × 10); if the port closed during that phase no terminate or
kill happens; only otherwise are the pid lookup, terminate, kill and the
re-poll (0.5 s × 8) performed, in that order. -/
theorem c5_stop_sequence (s : DdbState) (pid : Nat) (env : StopEnv)
    (h : s.thread_pid = some pid) :
    (env.graceful_poll_ok = true →
      stop_dynamodb s env =
        (Except.ok { s with proc_running := false, healthy := false },
          [Ev.auto_restart_off, Ev.shutdown_ev, Ev.join_ev 10, Ev.port_poll (8 / 10) 10]) ∧
        Ev.terminate_ev ∉ (stop_dynamodb s env).2 ∧
        Ev.kill_ev ∉ (stop_dynamodb s env).2) ∧
      (env.graceful_poll_ok = false →
        (stop_dynamodb s env).2 =
          [Ev.auto_restart_off, Ev.shutdown_ev, Ev.join_ev 10, Ev.port_poll (8 / 10) 10,
            Ev.pid_lookup pid, Ev.terminate_ev, Ev.kill_ev, Ev.port_poll (5 / 10) 8]) := by
  constructor
  · intro hg
    refine ⟨?_, ?_, ?_⟩ <;> simp [stop_dynamodb, h, hg]
  · intro hg
    by_cases hk : env.kill_poll_ok <;> simp [stop_dynamodb, h, hg, hk]

theorem c5_stop_sequence_witness :
    (stop_env_ok.graceful_poll_ok = true →
      stop_dynamodb running_state stop_env_ok =
        (Except.ok { running_state with proc_running := false, healthy := false },
          [Ev.auto_restart_off, Ev.shutdown_ev, Ev.join_ev 10, Ev.port_poll (8 / 10) 10]) ∧
        Ev.terminate_ev ∉ (stop_dynamodb running_state stop_env_ok).2 ∧
        Ev.kill_ev ∉ (stop_dynamodb running_state stop_env_ok).2) ∧
      (stop_env_ok.graceful_poll_ok = false →
        (stop_dynamodb running_state stop_env_ok).2 =
          [Ev.auto_restart_off, Ev.shutdown_ev, Ev.join_ev 10, Ev.port_poll (8 / 10) 10,
            Ev.pid_lookup 4242, Ev.terminate_ev, Ev.kill_ev, Ev.port_poll (5 / 10) 8]) :=
  c5_stop_sequence running_state 4242 stop_env_ok rfl

/-- True exactly on a successful stop result. -/
def stop_ok : Except StopErr DdbState → Bool
  | Except.ok _ => true
  | Except.error _ => false

/-- C2 (amended): stop surfaces an error only when both the graceful-phase
port poll and the post-kill re-poll find the port still open; any other
combination of outcomes returns normally, and the outcomes of the
`run_safe`-wrapped terminate/kill calls never influence the result. -/
theorem c2_stop_error_conditions (s : DdbState) (env : StopEnv) :
    ((env.graceful_poll_ok = true ∨ env.kill_poll_ok = true) →
      stop_ok (stop_dynamodb s env).1 = true) ∧
      (∀ e, (stop_dynamodb s env).1 = Except.error e →
        e = StopErr.port_still_open ∧ env.graceful_poll_ok = false ∧
          env.kill_poll_ok = false) ∧
      ∀ b1 b2 b3 b4,
        stop_dynamodb s { env with terminate_ok := b1, kill_ok := b2 } =
          stop_dynamodb s { env with terminate_ok := b3, kill_ok := b4 } := by
  refine ⟨?_, ?_, ?_⟩
  · intro hor
    rcases hp : s.thread_pid with _ | pid
    · simp [stop_dynamodb, hp, stop_ok]
    · rcases hor with hg | hk
      · simp [stop_dynamodb, hp, hg, stop_ok]
      · by_cases hg : env.graceful_poll_ok <;> simp [stop_dynamodb, hp, hg, hk, stop_ok]
  · intro e he
    rcases hp : s.thread_pid with _ | pid
    · simp [stop_dynamodb, hp] at he
    · by_cases hg : env.graceful_poll_ok
      · simp [stop_dynamodb, hp, hg] at he
      · by_cases hk : env.kill_poll_ok
        · simp [stop_dynamodb, hp, hg, hk] at he
        · cases e
          exact ⟨rfl, by simp [hg], by simp [hk]⟩
  · intro b1 b2 b3 b4
    rfl

/-- A stop environment in which the port never closes. -/
def stop_env_stuck : StopEnv :=
  { graceful_poll_ok := false, kill_poll_ok := false, terminate_ok := true, kill_ok := true }

/-- C2 counterexample: when the graceful-phase poll fails and the port is
still open after the forced kill, the final `wait_for_port_closed` call (line
141 of the source, not wrapped in any try/except) raises, so `stop_dynamodb`
does surface an exception to its caller. -/
theorem c2_counterexample :
    (stop_dynamodb running_state stop_env_stuck).1 =
      Except.error StopErr.port_still_open := rfl

theorem c2_stop_error_conditions_witness :
    stop_ok (stop_dynamodb running_state stop_env_ok).1 = true :=
  (c2_stop_error_conditions running_state stop_env_ok).1 (Or.inl rfl)

/-- The trace left by an exhausted retry loop started at attempt `i`:
`n` probes, each followed by a fixed sleep. -/
def timeout_trace_from (st : ℚ) : Nat → Nat → List Ev
  | 0, _ => []
  | Nat.succ k, i => Ev.probe_ev i :: Ev.sleep_ev st :: timeout_trace_from st k (i + 1)

theorem retry_aux_exhaust (probe : Nat → Bool) (st : ℚ) :
    ∀ (n i : Nat), (∀ j, j < n → probe (i + j) = false) →
      retry_aux probe st n i = (none, timeout_trace_from st n i) := by
  intro n
  induction n with
  | zero => intro i h; rfl
  | succ k ih =>
    intro i h
    have h0 : probe i = false := by simpa using h 0 (Nat.succ_pos k)
    have hr := ih (i + 1) (fun j hj => by
      have hs := h (j + 1) (Nat.succ_lt_succ hj)
      have he : i + (j + 1) = i + 1 + j := by omega
      rw [he] at hs
      exact hs)
    simp [retry_aux, h0, hr, timeout_trace_from]

/-- True exactly on a probe event; used to count health probes in a trace. -/
def is_probe : Ev → Bool
  | Ev.probe_ev _ => true
  | _ => false

/-- True exactly on a spawn event; used to count process spawns in a trace. -/
def is_spawn : Ev → Bool
  | Ev.spawn_ev => true
  | _ => false

/-- C7: when every health probe fails, `wait_for_dynamodb` performs exactly
ten probes at 0.4-second intervals and gives up (`none`, the embedded
health-check timeout), and `start_dynamodb` — called on a server that is not
already running and up — surfaces that timeout to its caller. -/
theorem c7_health_retry_exhaustion :
    (∀ probe : Nat → Bool, (∀ i, i < 10 → probe i = false) →
      wait_for_dynamodb probe = (none, timeout_trace_from ((4 : ℚ) / 10) 10 0)) ∧
      (timeout_trace_from ((4 : ℚ) / 10) 10 0).countP is_probe = 10 ∧
      ∀ (pid : Nat) (probe : Nat → Bool) (s : DdbState),
        (is_running s && is_up s) = false → (∀ i, i < 10 → probe i = false) →
          (start_dynamodb pid probe s).1 = Except.error StartErr.health_check_timeout := by
  refine ⟨?_, by decide, ?_⟩
  · intro probe h
    unfold wait_for_dynamodb retry_probe
    exact retry_aux_exhaust probe _ 10 0 (fun j hj => by simpa using h j hj)
  · intro pid probe s hcond hp
    have hw : wait_for_dynamodb probe = (none, timeout_trace_from ((4 : ℚ) / 10) 10 0) := by
      unfold wait_for_dynamodb retry_probe
      exact retry_aux_exhaust probe _ 10 0 (fun j hj => by simpa using hp j hj)
    simp [start_dynamodb, hcond, hw]

theorem c7_health_retry_exhaustion_witness :
    wait_for_dynamodb (fun _ => false) = (none, timeout_trace_from ((4 : ℚ) / 10) 10 0) ∧
      (start_dynamodb 4242 (fun _ => false) fresh_state).1 =
        Except.error StartErr.health_check_timeout :=
  ⟨c7_health_retry_exhaustion.1 (fun _ => false) (fun _ _ => rfl),
    c7_health_retry_exhaustion.2.2 4242 (fun _ => false) fresh_state rfl (fun _ _ => rfl)⟩

theorem retry_aux_no_spawn (probe : Nat → Bool) (st : ℚ) :
    ∀ (n i : Nat), ((retry_aux probe st n i).2).countP is_spawn = 0 := by
  intro n
  induction n with
  | zero => intro i; rfl
  | succ k ih => intro i; by_cases hp : probe i <;> simp [retry_aux, hp, is_spawn, ih]

/-- C1: starting an already running and healthy server returns true
immediately with no side effects (empty trace, unchanged state); and a
successful start from a non-running state spawns exactly once, after which a
second start without an intervening stop returns success immediately without
a second spawn. -/
theorem c1_start_idempotent :
    (∀ (pid : Nat) (probe : Nat → Bool) (s : DdbState),
      is_running s = true → is_up s = true →
        start_dynamodb pid probe s = (Except.ok (true, s), [])) ∧
      ∀ (a b : Nat) (p1 p2 : Nat → Bool) (s : DdbState) (r : Bool) (s1 : DdbState)
        (tr : List Ev),
        (is_running s && is_up s) = false →
        start_dynamodb a p1 s = (Except.ok (r, s1), tr) →
          s1.spawns = s.spawns + 1 ∧ tr.countP is_spawn = 1 ∧
            start_dynamodb b p2 s1 = (Except.ok (true, s1), []) := by
  constructor
  · intro pid probe s h1 h2
    simp [start_dynamodb, h1, h2]
  · intro a b p1 p2 s r s1 tr hcond hstart
    rcases hw : wait_for_dynamodb p1 with ⟨res, wtr⟩
    rcases res with _ | k
    · simp [start_dynamodb, hcond, hw] at hstart
    · simp [start_dynamodb, server_start, hcond, hw] at hstart
      obtain ⟨⟨hr, hsa⟩, htr⟩ := hstart
      subst hsa
      subst htr
      have hwtr : wtr.countP is_spawn = 0 := by
        have h0 := retry_aux_no_spawn p1 ((4 : ℚ) / 10) 10 0
        rw [show retry_aux p1 ((4 : ℚ) / 10) 10 0 = (some k, wtr) from hw] at h0
        exact h0
      refine ⟨rfl, ?_, ?_⟩
      · by_cases hdb : optStrTruthy s.conf.db_path <;>
          simp [hdb, is_spawn, hwtr, List.countP_append, List.countP_cons]
      · simp [start_dynamodb, is_running, is_up]

theorem c1_start_idempotent_witness :
    start_dynamodb 4243 (fun _ => true) running_state = (Except.ok (true, running_state), []) ∧
      (running_state.spawns = fresh_state.spawns + 1 ∧
        ([Ev.clear_start_flag, Ev.clear_stop_flag, Ev.mkdir_ev ("/data/dynamodb"), Ev.spawn_ev,
          Ev.probe_ev 0]).countP is_spawn = 1 ∧
        start_dynamodb 4244 (fun _ => true) running_state =
          (Except.ok (true, running_state), [])) :=
  ⟨c1_start_idempotent.1 4243 (fun _ => true) running_state rfl rfl,
    c1_start_idempotent.2 4242 4244 (fun _ => true) (fun _ => true) fresh_state true
      running_state
      [Ev.clear_start_flag, Ev.clear_stop_flag, Ev.mkdir_ev ("/data/dynamodb"), Ev.spawn_ev,
        Ev.probe_ev 0] rfl rfl⟩
